import Mathlib

/-!
Shallow embedding of the multiagent-dashboard state-synchronization pipeline.

Sources embedded:
- `src/src/lib/session-reader.ts` (status derivation, session snapshot model)
- `src/src/lib/adapters/claude-code.ts` (both adapters and their pure helpers)
- `src/src/lib/watcher.ts` (diff suppression / debounce publishing logic)
- `src/src/types/index.ts`, `src/src/lib/constants.ts` (data model, constants)

Machine integers are modelled as `Int` (all arithmetic in the sources stays
far from 2^53, so JS numbers behave as exact integers on every value the
code manipulates). Wall-clock instants (`Date`) are modelled as `Int`
milliseconds since the epoch; `Date.prototype.toISOString` is passed in as
an explicit function parameter `iso : Int → String` wherever the adapters
stringify an instant. File-system reads are modelled by explicit
`FileContent` inputs (missing / malformed / parsed JSON); guarded readers
whose internal parses can never throw are modelled by their resulting
values carried in the file-system record.
-/

/-- Activity classification, `SessionActivity` in `session-reader.ts` and
`AgentStatus` in `types/index.ts` (the two TypeScript unions have the same
three members and flow into each other unchanged). -/
inductive AgentStatus where
  | working
  | idle
  | completed
deriving DecidableEq, Repr

abbrev SessionActivity := AgentStatus

/-- Model tier union from `types/index.ts`. -/
inductive ModelTier where
  | opus
  | sonnet
  | haiku
deriving DecidableEq, Repr

/-- Agent display color union from `types/index.ts`. -/
inductive AgentColor where
  | blue
  | red
  | green
  | yellow
  | purple
  | cyan
deriving DecidableEq, Repr

/-- Ticket status union from `types/index.ts`. -/
inductive TicketStatus where
  | pending
  | inProgress
  | completed
  | blocked
  | failed
deriving DecidableEq, Repr

/-- Ticket priority union from `types/index.ts`. -/
inductive TicketPriority where
  | critical
  | high
  | medium
  | low
deriving DecidableEq, Repr

/-- Activity event kind union from `types/index.ts`. -/
inductive ActivityEventType where
  | ticketStarted
  | ticketCompleted
  | ticketFailed
  | agentSpawned
  | agentIdle
  | milestoneStarted
  | milestoneCompleted
  | messageSent
  | reviewSubmitted
  | system
deriving DecidableEq, Repr

/-- `Agent` record from `types/index.ts`. -/
structure Agent where
  id : String
  role : String
  modelTier : ModelTier
  status : AgentStatus
  color : AgentColor
  ticketsAssigned : Int
  ticketsCompleted : Int
  currentTicket : Option String
  sessionId : Option String
deriving DecidableEq, Repr

/-- `Ticket` record from `types/index.ts`. -/
structure Ticket where
  id : String
  title : String
  agentId : Option String
  milestone : String
  status : TicketStatus
  priority : TicketPriority
  dependencies : List String
deriving DecidableEq, Repr

/-- `ActivityEvent` record from `types/index.ts`; `timestamp` is the ISO
string the code sorts with `localeCompare`, modelled as lexicographic
string order. -/
structure ActivityEvent where
  timestamp : String
  agentId : Option String
  sessionId : Option String
  type : ActivityEventType
  summary : String
deriving DecidableEq, Repr

/-- `TicketsSummary` record from `types/index.ts`. -/
structure TicketsSummary where
  total : Int
  completed : Int
  inProgress : Int
  pending : Int
  blocked : Int
  failed : Int
deriving DecidableEq, Repr

/-- `ProjectState` record from `types/index.ts`. -/
structure ProjectState where
  name : String
  phase : String
  status : String
  currentMilestone : Option String
  activeAgents : List String
  ticketsSummary : TicketsSummary
  startedAt : Option String
  lastUpdatedAt : Option String
deriving DecidableEq, Repr

/-- `UsagePeriod` record from `types/index.ts`. -/
structure UsagePeriod where
  used : Int
  limit : Int
  resetIn : String
deriving DecidableEq, Repr

/-- `ContextWindow` record from `types/index.ts`. -/
structure ContextWindow where
  used : Int
  total : Int
  percentage : Int
deriving DecidableEq, Repr

/-- `ResourceUsage` record from `types/index.ts`. -/
structure ResourceUsage where
  daily : UsagePeriod
  weekly : UsagePeriod
  contextWindow : ContextWindow
  model : String
  lastUpdated : Option String
deriving DecidableEq, Repr

/-- `Message` record from `types/index.ts` (`urgency` is the two-member
union `normal | high`, modelled as a Bool flag `urgencyHigh`). -/
structure Message where
  timestamp : String
  from_ : String
  to_ : String
  ticketId : Option String
  content : String
  urgencyHigh : Bool
deriving DecidableEq, Repr

/-- `DashboardState` record from `types/index.ts` — the Snapshot root value. -/
structure DashboardState where
  agents : List Agent
  tickets : List Ticket
  activity : List ActivityEvent
  project : ProjectState
  resources : ResourceUsage
  messages : List Message
  error : Option String
deriving DecidableEq, Repr

-- --- session-reader.ts ---

/-- `ACTIVE_THRESHOLD_MS = 2 * 60 * 1000` from `session-reader.ts`. -/
def ACTIVE_THRESHOLD_MS : Int := 2 * 60 * 1000

/-- `DONE_THRESHOLD_MS = 5 * 60 * 1000` from `session-reader.ts`. -/
def DONE_THRESHOLD_MS : Int := 5 * 60 * 1000

/-- `deriveActivity` from `session-reader.ts`: derives an activity
classification from `Date.now()` and the file's last-modification time,
both in milliseconds. -/
def deriveActivity (now : Int) (lastModified : Int) : SessionActivity :=
  let elapsed := now - lastModified
  if elapsed < ACTIVE_THRESHOLD_MS then .working
  else if elapsed < DONE_THRESHOLD_MS then .completed
  else .idle

/-- Specification-side restatement of §4.2 of the spec: a pure function of
the elapsed time alone, `t < 2min → working`, `2min ≤ t < 5min →
completed`, `t ≥ 5min → idle`. Compared against `deriveActivity`. -/
def activityOfElapsedSpec (t : Int) : SessionActivity :=
  if t < 2 * 60 * 1000 then .working
  else if t < 5 * 60 * 1000 then .completed
  else .idle

/-- `AgentSession` record from `session-reader.ts`; `lastModified` is the
JSONL file's mtime in epoch milliseconds. -/
structure AgentSession where
  agentId : String
  agentName : Option String
  sessionFile : String
  lastModified : Int
  activity : SessionActivity
  model : Option String
  role : Option String
  currentTask : Option String
  lastAction : Option String
deriving DecidableEq, Repr

/-- `MainSession` record from `session-reader.ts`. -/
structure MainSession where
  sessionId : String
  sessionFile : String
  lastModified : Int
  activity : SessionActivity
deriving DecidableEq, Repr

/-- `SessionSnapshot` record from `session-reader.ts`; `subagents` is
ordered newest-first by `readSubagentSessions`. -/
structure SessionSnapshot where
  mainSession : Option MainSession
  subagents : List AgentSession
deriving DecidableEq, Repr

/-- C1: for every last-modification time, `deriveActivity` returns
`working` when the elapsed time `t` satisfies `t < 2min`, `completed` when
`2min ≤ t < 5min`, `idle` when `t ≥ 5min`, and is a pure function of the
elapsed time alone (it factors through `activityOfElapsedSpec`). -/
theorem deriveActivity_classifies_by_elapsed (now lastModified t : Int)
    (h : t = now - lastModified) :
    (t < 2 * 60 * 1000 → deriveActivity now lastModified = .working) ∧
    (2 * 60 * 1000 ≤ t → t < 5 * 60 * 1000 →
      deriveActivity now lastModified = .completed) ∧
    (5 * 60 * 1000 ≤ t → deriveActivity now lastModified = .idle) ∧
    deriveActivity now lastModified = activityOfElapsedSpec t := by
  subst h
  unfold deriveActivity activityOfElapsedSpec ACTIVE_THRESHOLD_MS DONE_THRESHOLD_MS
  refine ⟨fun h1 => ?_, fun h1 h2 => ?_, fun h1 => ?_, rfl⟩
  · rw [if_pos (by omega)]
  · rw [if_neg (by omega), if_pos (by omega)]
  · rw [if_neg (by omega), if_neg (by omega)]

/-- Witness for C1: instantiates the classification at elapsed times of
one, three and six minutes. -/
theorem deriveActivity_classifies_by_elapsed_witness :
    deriveActivity 60000 0 = .working ∧
    deriveActivity 180000 0 = .completed ∧
    deriveActivity 360000 0 = .idle :=
  ⟨(deriveActivity_classifies_by_elapsed 60000 0 60000 rfl).1 (by decide),
   (deriveActivity_classifies_by_elapsed 180000 0 180000 rfl).2.1 (by decide) (by decide),
   (deriveActivity_classifies_by_elapsed 360000 0 360000 rfl).2.2.1 (by decide)⟩

-- --- JSON values and file contents ---

/-- Parsed JSON value, the result of a successful `JSON.parse`. Numbers are
modelled as integers (every number the embedded code inspects is an exact
integer). `JSON.parse` never produces duplicate object keys (the last
occurrence in the text wins), so object field lists are assumed key-unique
and looked up by first match. -/
inductive Json where
  | null
  | bool (b : Bool)
  | num (n : Int)
  | str (s : String)
  | arr (elems : List Json)
  | obj (fields : List (String × Json))

/-- Outcome of reading one file as text and then parsing it as JSON:
the file may be absent or unreadable (`readFileSafe` returns null), present
but not valid JSON (`JSON.parse` throws), or present with a parse result. -/
inductive FileContent where
  | missing
  | malformed
  | json (j : Json)

/-- Property lookup on a JSON object's field list (first match; see the
key-uniqueness note on `Json`). -/
def getField (fields : List (String × Json)) (key : String) : Option Json :=
  (fields.find? (fun p => decide (p.1 = key))).map (·.2)

/-- Zod `z.string()` on a present-or-absent field: absent keys pass as
`undefined` only under `.optional()`, so a required string field fails on
absence and on any non-string value. -/
def reqString : Option Json → Option String
  | some (.str s) => some s
  | _ => none

/-- Zod `z.string().optional()`: absent passes as none, a present value
must be a string (`null` fails `.optional()`). -/
def optString : Option Json → Option (Option String)
  | none => some none
  | some (.str s) => some (some s)
  | some _ => none

/-- Zod `z.number()` on a required field. -/
def reqNum : Option Json → Option Int
  | some (.num n) => some n
  | _ => none

/-- Zod `z.number().optional()`. -/
def optNum : Option Json → Option (Option Int)
  | none => some none
  | some (.num n) => some (some n)
  | some _ => none

/-- Zod `z.string().nullable()`: required, passes `null` through. -/
def nullableString : Option Json → Option (Option String)
  | some (.str s) => some (some s)
  | some .null => some none
  | _ => none

/-- Zod `z.enum(['opus', 'sonnet', 'haiku'])` value check. -/
def parseTier : Json → Option ModelTier
  | .str "opus" => some .opus
  | .str "sonnet" => some .sonnet
  | .str "haiku" => some .haiku
  | _ => none

/-- Zod `z.enum([...]).optional()` for the model-tier fields. -/
def optTier : Option Json → Option (Option ModelTier)
  | none => some none
  | some j => (parseTier j).map some

/-- Zod `z.array(z.string()).optional()`. -/
def optStringArray : Option Json → Option (Option (List String))
  | none => some none
  | some (.arr xs) =>
    (xs.mapM (fun j => show Option String from
      match j with | .str s => some s | _ => none)).map some
  | some _ => none

-- --- Zod schemas for MAMH JSON files (claude-code.ts lines 184-251) ---

/-- `ArrayRegistryAgentSchema` parse result. -/
structure ArrayRegistryAgent where
  id : String
  role : String
  modelTier : Option ModelTier
  status : Option String
  ticketsCompleted : Option Int
  ticketsAssigned : Option Int
deriving DecidableEq, Repr

/-- `ArrayRegistryAgentSchema.safeParse` on one element: a `z.object`
strips unknown keys and validates the declared ones. -/
def parseArrayRegistryAgent : Json → Option ArrayRegistryAgent
  | .obj fs => do
    let id ← reqString (getField fs "id")
    let role ← reqString (getField fs "role")
    let modelTier ← optTier (getField fs "modelTier")
    let status ← optString (getField fs "status")
    let ticketsCompleted ← optNum (getField fs "ticketsCompleted")
    let ticketsAssigned ← optNum (getField fs "ticketsAssigned")
    some ⟨id, role, modelTier, status, ticketsCompleted, ticketsAssigned⟩
  | _ => none

/-- `ArrayRegistrySchema` parse result. -/
structure ArrayRegistry where
  agents : List ArrayRegistryAgent
  totalAgents : Option Int
deriving DecidableEq, Repr

/-- `ArrayRegistrySchema.safeParse`. -/
def parseArrayRegistry : Json → Option ArrayRegistry
  | .obj fs => do
    let agentsJson ← match getField fs "agents" with
      | some (.arr xs) => some xs
      | _ => none
    let agents ← agentsJson.mapM parseArrayRegistryAgent
    let totalAgents ← optNum (getField fs "totalAgents")
    some ⟨agents, totalAgents⟩
  | _ => none

/-- `ObjectRegistryAgentSchema` parse result. -/
structure ObjectRegistryAgent where
  name : Option String
  role : String
  model : Option ModelTier
  phase : Option (List String)
  focus : Option String
deriving DecidableEq, Repr

/-- `ObjectRegistryAgentSchema.safeParse` on one record value. -/
def parseObjectRegistryAgent : Json → Option ObjectRegistryAgent
  | .obj fs => do
    let name ← optString (getField fs "name")
    let role ← reqString (getField fs "role")
    let model ← optTier (getField fs "model")
    let phase ← optStringArray (getField fs "phase")
    let focus ← optString (getField fs "focus")
    some ⟨name, role, model, phase, focus⟩
  | _ => none

/-- `ObjectRegistrySchema` parse result; `agents` keeps the record's
insertion order, matching `Object.entries`. -/
structure ObjectRegistry where
  agents : List (String × ObjectRegistryAgent)
  version : Option Int
deriving DecidableEq, Repr

/-- `ObjectRegistrySchema.safeParse`: `z.record` requires a plain object
(a JSON array fails the record's type check in zod 3). -/
def parseObjectRegistry : Json → Option ObjectRegistry
  | .obj fs => do
    let agentsFields ← match getField fs "agents" with
      | some (.obj afs) => some afs
      | _ => none
    let agents ← agentsFields.mapM
      (fun p => (parseObjectRegistryAgent p.2).map (fun a => (p.1, a)))
    let version ← optNum (getField fs "version")
    some ⟨agents, version⟩
  | _ => none

-- --- Helper functions (claude-code.ts lines 253-339) ---

/-- `AGENT_COLORS` from `constants.ts`. -/
def AGENT_COLORS : List AgentColor :=
  [.blue, .red, .green, .yellow, .purple, .cyan]

/-- `assignColor` from `claude-code.ts`: `AGENT_COLORS[index % AGENT_COLORS.length]`. -/
def assignColor (index : Nat) : AgentColor :=
  (AGENT_COLORS.get? (index % AGENT_COLORS.length)).getD .blue

/-- ECMAScript `String.prototype.toLowerCase` on one character, restricted
to the ASCII range (every vocabulary key is ASCII; non-ASCII characters
map to themselves, which matches the JS behavior on every character the
vocabularies can distinguish). -/
def jsToLowerChar (c : Char) : Char :=
  if 'A' ≤ c ∧ c ≤ 'Z' then Char.ofNat (c.toNat + 32) else c

/-- ECMAScript `String.prototype.toLowerCase`, characterwise. -/
def jsToLower (s : String) : String :=
  String.mk (s.data.map jsToLowerChar)

/-- ECMAScript WhiteSpace / LineTerminator test used by
`String.prototype.trim` (ASCII members). -/
def jsWhitespaceChar (c : Char) : Bool :=
  c = ' ' || c = '\t' || c = '\n' || c = '\r' || c = '\x0b' || c = '\x0c'

/-- ECMAScript `String.prototype.trim`: strips leading and trailing
whitespace. -/
def jsTrim (s : String) : String :=
  String.mk (((s.data.dropWhile jsWhitespaceChar).reverse.dropWhile
    jsWhitespaceChar).reverse)

/-- Vocabulary table inside `parseTicketStatus`. -/
def ticketStatusMapping : List (String × TicketStatus) :=
  [("pending", .pending),
   ("in-progress", .inProgress),
   ("in_progress", .inProgress),
   ("inprogress", .inProgress),
   ("approved", .inProgress),
   ("active", .inProgress),
   ("completed", .completed),
   ("done", .completed),
   ("blocked", .blocked),
   ("failed", .failed)]

/-- `parseTicketStatus` from `claude-code.ts`: lower-cases and trims the
raw string, then maps it through the fixed vocabulary, defaulting to
`pending`. -/
def parseTicketStatus (raw : String) : TicketStatus :=
  (ticketStatusMapping.lookup (jsTrim (jsToLower raw))).getD .pending

/-- Vocabulary table inside `parseTicketPriority`. -/
def ticketPriorityMapping : List (String × TicketPriority) :=
  [("critical", .critical),
   ("high", .high),
   ("medium", .medium),
   ("low", .low)]

/-- `parseTicketPriority` from `claude-code.ts`: lower-cases and trims the
raw string, then maps it through the fixed vocabulary, defaulting to
`medium`. -/
def parseTicketPriority (raw : String) : TicketPriority :=
  (ticketPriorityMapping.lookup (jsTrim (jsToLower raw))).getD .medium

-- --- MamhAdapter.readAgents (claude-code.ts lines 419-459) ---

/-- Normalization of an array-shaped registry (`readAgents` lines 428-440). -/
def normalizeArrayRegistry (r : ArrayRegistry) : List Agent :=
  r.agents.enum.map fun p =>
    { id := p.2.id
      role := p.2.role
      modelTier := p.2.modelTier.getD .sonnet
      status := .idle
      color := assignColor p.1
      ticketsAssigned := p.2.ticketsAssigned.getD 0
      ticketsCompleted := p.2.ticketsCompleted.getD 0
      currentTicket := none
      sessionId := none }

/-- Normalization of an object-shaped registry (`readAgents` lines 443-456). -/
def normalizeObjectRegistry (r : ObjectRegistry) : List Agent :=
  r.agents.enum.map fun p =>
    { id := p.2.1
      role := p.2.2.role
      modelTier := p.2.2.model.getD .sonnet
      status := .idle
      color := assignColor p.1
      ticketsAssigned := 0
      ticketsCompleted := 0
      currentTicket := none
      sessionId := none }

/-- Shape dispatch of `readAgents` on a successfully parsed registry JSON
value: the array schema is tried first, then the object schema, and an
unrecognized shape yields an empty agent list. -/
def normalizeRegistry (j : Json) : List Agent :=
  match parseArrayRegistry j with
  | some r => normalizeArrayRegistry r
  | none =>
    match parseObjectRegistry j with
    | some r => normalizeObjectRegistry r
    | none => []

/-- `MamhAdapter.readAgents`: reading the registry file. A missing or
unreadable file yields an empty list; a present file is fed to
`JSON.parse`, which throws on malformed text (the `.error` case — note the
call at line 424 is not guarded by any local try/catch); a parsed value is
normalized by shape. -/
def readAgentsE : FileContent → Except String (List Agent)
  | .missing => .ok []
  | .malformed => .error "Unexpected token in JSON"
  | .json j => .ok (normalizeRegistry j)

/-- The array-shaped registry literal from the claim. -/
def arrayRegistryExample : Json :=
  .obj [("agents", .arr [.obj
    [("id", .str "a"), ("role", .str "Engineer"), ("modelTier", .str "sonnet")]])]

/-- Parse result of `arrayRegistryExample` under the array schema. -/
def arrayRegistryExampleParsed : ArrayRegistry :=
  ⟨[⟨"a", "Engineer", some .sonnet, none, none, none⟩], none⟩

/-- The object-shaped registry literal from the claim. -/
def objectRegistryExample : Json :=
  .obj [("agents", .obj [("a", .obj
    [("role", .str "Engineer"), ("model", .str "opus")])])]

/-- C7: registry normalization tries the array shape before the object
shape; the claim's array-shaped input yields exactly one agent with id
`a` and tier `sonnet`; the claim's object-shaped input yields exactly one
agent with id `a` and tier `opus`; and every parsed JSON value matching
neither shape yields an empty list rather than an error. -/
theorem normalizeRegistry_shapes :
    (normalizeRegistry arrayRegistryExample).map (fun a => (a.id, a.modelTier)) =
      [("a", ModelTier.sonnet)] ∧
    (normalizeRegistry objectRegistryExample).map (fun a => (a.id, a.modelTier)) =
      [("a", ModelTier.opus)] ∧
    (∀ j r, parseArrayRegistry j = some r →
      normalizeRegistry j = normalizeArrayRegistry r) ∧
    (∀ j, parseArrayRegistry j = none → parseObjectRegistry j = none →
      normalizeRegistry j = []) := by
  refine ⟨by decide, by decide, fun j r h => ?_, fun j h1 h2 => ?_⟩
  · simp [normalizeRegistry, h]
  · simp [normalizeRegistry, h1, h2]

/-- Witness for C7: instantiates the shape-priority part at the array
example and the neither-shape part at the JSON number `5`. -/
theorem normalizeRegistry_shapes_witness :
    normalizeRegistry arrayRegistryExample =
      normalizeArrayRegistry arrayRegistryExampleParsed ∧
    normalizeRegistry (.num 5) = [] :=
  ⟨normalizeRegistry_shapes.2.2.1 arrayRegistryExample arrayRegistryExampleParsed
      (by decide),
   normalizeRegistry_shapes.2.2.2 (.num 5) rfl rfl⟩

-- --- C8: ticket status / priority vocabulary mapping ---

/-- Key-absence lemma for association-list lookup: a key outside the key
set resolves to `none`. -/
theorem lookup_none_of_key_not_mem {β : Type} (k : String) :
    ∀ (l : List (String × β)), k ∉ l.map Prod.fst → l.lookup k = none := by
  intro l
  induction l with
  | nil => intro _; rfl
  | cons p t ih =>
    intro h
    obtain ⟨a, b⟩ := p
    simp only [List.map_cons, List.mem_cons] at h
    push_neg at h
    have hk : (k == a) = false := beq_eq_false_iff_ne.mpr h.1
    simp [List.lookup, hk, ih h.2]

/-- C8: ticket status normalization is case-insensitive after trimming —
`done`, `DONE ` and `completed` map to `completed`; `in_progress`,
`active` and `approved` map to `in-progress`; any string whose
lower-cased, trimmed form is outside the fixed vocabulary maps to
`pending`; and any priority string whose lower-cased, trimmed form is
outside the fixed priority vocabulary maps to `medium`. -/
theorem ticket_vocabulary_mapping :
    parseTicketStatus "done" = .completed ∧
    parseTicketStatus "DONE " = .completed ∧
    parseTicketStatus "completed" = .completed ∧
    parseTicketStatus "in_progress" = .inProgress ∧
    parseTicketStatus "active" = .inProgress ∧
    parseTicketStatus "approved" = .inProgress ∧
    (∀ s, jsTrim (jsToLower s) ∉ ticketStatusMapping.map Prod.fst →
      parseTicketStatus s = .pending) ∧
    (∀ s, jsTrim (jsToLower s) ∉ ticketPriorityMapping.map Prod.fst →
      parseTicketPriority s = .medium) := by
  refine ⟨by decide, by decide, by decide, by decide, by decide, by decide,
    fun s h => ?_, fun s h => ?_⟩
  · unfold parseTicketStatus
    rw [lookup_none_of_key_not_mem _ _ h]
    rfl
  · unfold parseTicketPriority
    rw [lookup_none_of_key_not_mem _ _ h]
    rfl

/-- Witness for C8: instantiates the out-of-vocabulary parts at the
strings `WIP` and `urgent`. -/
theorem ticket_vocabulary_mapping_witness :
    parseTicketStatus "WIP" = .pending ∧ parseTicketPriority "urgent" = .medium :=
  ⟨ticket_vocabulary_mapping.2.2.2.2.2.2.1 "WIP" (by decide),
   ticket_vocabulary_mapping.2.2.2.2.2.2.2 "urgent" (by decide)⟩

-- --- deriveAgentStatusesFromSession (claude-code.ts lines 767-817) ---

/-- Split a character list at a separator character. -/
def splitOnChar : List Char → Char → List (List Char)
  | [], _ => [[]]
  | c :: cs, sep =>
    let rest := splitOnChar cs sep
    if c = sep then [] :: rest
    else
      match rest with
      | r :: rs => (c :: r) :: rs
      | [] => [[c]]

/-- Whether the first character list starts the second. -/
def leadsWith : List Char → List Char → Bool
  | [], _ => true
  | _ :: _, [] => false
  | a :: as, b :: bs => decide (a = b) && leadsWith as bs

/-- Whether the second character list occurs inside the first. -/
def hasSub : List Char → List Char → Bool
  | [], sub => sub.isEmpty
  | c :: rest, sub => leadsWith sub (c :: rest) || hasSub rest sub

/-- `path.basename(file, '.jsonl')`: last path component (separated on
`/`) with a trailing `.jsonl` removed. -/
def basenameNoJsonl (p : String) : String :=
  let base := (splitOnChar p.data '/').getLastD p.data
  if base.drop (base.length - 6) = ".jsonl".data then
    String.mk (base.take (base.length - 6))
  else String.mk base

/-- The `sessionByName` map (lines 774-779) as a lookup function: only
sessions with a truthy (present, non-empty) `agentName` are inserted, the
first occurrence per name wins, so a lookup returns the first session in
list order whose name equals the key. -/
def sessionByName (subs : List AgentSession) (id : String) : Option AgentSession :=
  subs.find? (fun s => decide (s.agentName = some id ∧ id ≠ ""))

/-- The `sessionById` map (lines 780-782) as a lookup function: a JS `Map`
built from an entry list keeps the last entry per key, so a lookup returns
the last session in list order whose `agentId` equals the key. -/
def sessionById (subs : List AgentSession) (id : String) : Option AgentSession :=
  subs.reverse.find? (fun s => decide (s.agentId = id))

/-- The session matched to one registry agent (line 790): declared-name
match first, opaque-identifier match as fallback. -/
def matchedSessionFor (snap : SessionSnapshot) (id : String) : Option AgentSession :=
  (sessionByName snap.subagents id).orElse (fun _ => sessionById snap.subagents id)

/-- Body of the `agents.map` callback in `deriveAgentStatusesFromSession`
(lines 784-816). -/
def deriveOneAgentStatus (tickets : List Ticket) (snap : SessionSnapshot)
    (agent : Agent) : Agent :=
  let agentTickets := tickets.filter (fun t => decide (t.agentId = some agent.id))
  let inProgress := agentTickets.filter (fun t => decide (t.status = .inProgress))
  let completed := agentTickets.filter (fun t => decide (t.status = .completed))
  let matchedSession := matchedSessionFor snap agent.id
  let status : AgentStatus :=
    match matchedSession with
    | some s => s.activity
    | none =>
      if inProgress.length > 0 then .working
      else if agentTickets.length > 0 ∧ completed.length = agentTickets.length then
        .completed
      else .idle
  { agent with
    status := status
    ticketsAssigned := (agentTickets.length : Int)
    ticketsCompleted := (completed.length : Int)
    currentTicket := inProgress.head?.map (·.id)
    sessionId :=
      match matchedSession with
      | some s => some (basenameNoJsonl s.sessionFile)
      | none => agent.sessionId }

/-- `deriveAgentStatusesFromSession` from `claude-code.ts`. -/
def deriveAgentStatusesFromSession (agents : List Agent) (tickets : List Ticket)
    (snap : SessionSnapshot) : List Agent :=
  agents.map (deriveOneAgentStatus tickets snap)

/-- Ticket-fallback status in the words of the spec: `working` when the
agent has an in-progress ticket, `completed` when all of its one-or-more
tickets are completed, otherwise `idle`. Compared with the computation in
`deriveOneAgentStatus`. -/
def ticketFallbackStatusSpec (id : String) (tickets : List Ticket) : AgentStatus :=
  let assigned := tickets.filter (fun t => decide (t.agentId = some id))
  if ∃ t ∈ assigned, t.status = .inProgress then .working
  else if assigned ≠ [] ∧ ∀ t ∈ assigned, t.status = .completed then .completed
  else .idle

/-- Positivity of a filtered length expressed as existence of a member
satisfying the predicate. -/
theorem filter_length_pos_iff {α : Type} (p : α → Bool) (l : List α) :
    0 < (l.filter p).length ↔ ∃ x ∈ l, p x := by
  rw [List.length_pos, Ne, List.filter_eq_nil_iff]
  push_neg
  simp

/-- A filter keeps the whole length exactly when every member satisfies
the predicate. -/
theorem filter_length_eq_iff {α : Type} (p : α → Bool) (l : List α) :
    (l.filter p).length = l.length ↔ ∀ x ∈ l, p x := by
  rw [← List.countP_eq_length_filter]
  exact List.countP_eq_length

/-- C9: `deriveAgentStatusesFromSession` returns a list of the same length
and order as its input, preserving each agent's `id`, `role`, `modelTier`
and `color`; only the session/ticket-derived fields can change. -/
theorem deriveAgentStatuses_frame (agents : List Agent) (tickets : List Ticket)
    (snap : SessionSnapshot) :
    (deriveAgentStatusesFromSession agents tickets snap).length = agents.length ∧
    ∀ (i : Nat) (agent : Agent), agents[i]? = some agent →
      ∃ out : Agent,
        (deriveAgentStatusesFromSession agents tickets snap)[i]? = some out ∧
        out.id = agent.id ∧ out.role = agent.role ∧
        out.modelTier = agent.modelTier ∧ out.color = agent.color := by
  refine ⟨by simp [deriveAgentStatusesFromSession], fun i agent h => ?_⟩
  refine ⟨deriveOneAgentStatus tickets snap agent, ?_, rfl, rfl, rfl, rfl⟩
  simp [deriveAgentStatusesFromSession, h]

/-- Witness for C9: instantiates the frame condition at a one-agent list
and an empty session snapshot. -/
theorem deriveAgentStatuses_frame_witness :
    ∃ out : Agent,
      (deriveAgentStatusesFromSession
        [⟨"a1", "Engineer", .sonnet, .idle, .blue, 0, 0, none, none⟩] [] ⟨none, []⟩)[0]? =
        some out ∧
      out.id = "a1" ∧ out.role = "Engineer" ∧
      out.modelTier = ModelTier.sonnet ∧ out.color = AgentColor.blue :=
  (deriveAgentStatuses_frame
    [⟨"a1", "Engineer", .sonnet, .idle, .blue, 0, 0, none, none⟩] [] ⟨none, []⟩).2
    0 ⟨"a1", "Engineer", .sonnet, .idle, .blue, 0, 0, none, none⟩ (by decide)

/-- C3: identity resolution and status sourcing in
`deriveAgentStatusesFromSession`. For the agent at any input position: a
declared-name match (which needs no agreement with the session's opaque
`agentId`) gives the agent the matched session's activity; with no name
match anywhere, an opaque-identifier match gives the matched session's
activity; with neither, the status is derived from the ticket assignment
state alone, exactly as `ticketFallbackStatusSpec` states it; and whenever
any subordinate session declares a non-empty name equal to the agent's
id, the name lookup does resolve. -/
theorem deriveAgentStatuses_resolution (agents : List Agent) (tickets : List Ticket)
    (snap : SessionSnapshot) (i : Nat) (agent : Agent)
    (h : agents[i]? = some agent) :
    ∃ out : Agent,
      (deriveAgentStatusesFromSession agents tickets snap)[i]? = some out ∧
      (∀ s, sessionByName snap.subagents agent.id = some s →
        out.status = s.activity) ∧
      (sessionByName snap.subagents agent.id = none →
        ∀ s, sessionById snap.subagents agent.id = some s →
          out.status = s.activity) ∧
      (sessionByName snap.subagents agent.id = none →
        sessionById snap.subagents agent.id = none →
        out.status = ticketFallbackStatusSpec agent.id tickets) ∧
      (∀ s ∈ snap.subagents, s.agentName = some agent.id → agent.id ≠ "" →
        (sessionByName snap.subagents agent.id).isSome) := by
  refine ⟨deriveOneAgentStatus tickets snap agent,
    by simp [deriveAgentStatusesFromSession, h], ?_, ?_, ?_, ?_⟩
  · intro s hs
    simp [deriveOneAgentStatus, matchedSessionFor, hs, Option.orElse]
  · intro hn s hi
    simp [deriveOneAgentStatus, matchedSessionFor, hn, hi, Option.orElse]
  · intro hn hi
    simp only [deriveOneAgentStatus, matchedSessionFor, hn, hi, Option.orElse]
    unfold ticketFallbackStatusSpec
    have e1 : 0 < ((tickets.filter (fun t => decide (t.agentId = some agent.id))).filter
        (fun t => decide (t.status = .inProgress))).length ↔
        ∃ t ∈ tickets.filter (fun t => decide (t.agentId = some agent.id)),
          t.status = .inProgress := by
      rw [filter_length_pos_iff]
      simp
    have e2 : ((tickets.filter (fun t => decide (t.agentId = some agent.id))).length > 0 ∧
        ((tickets.filter (fun t => decide (t.agentId = some agent.id))).filter
          (fun t => decide (t.status = .completed))).length =
          (tickets.filter (fun t => decide (t.agentId = some agent.id))).length) ↔
        (tickets.filter (fun t => decide (t.agentId = some agent.id)) ≠ [] ∧
          ∀ t ∈ tickets.filter (fun t => decide (t.agentId = some agent.id)),
            t.status = .completed) := by
      rw [filter_length_eq_iff]
      simp [List.length_pos]
    rw [if_congr e1 rfl (if_congr e2 rfl rfl)]
  · intro s hs hname hne
    have hex : ∃ x ∈ snap.subagents,
        (fun s => decide (s.agentName = some agent.id ∧ agent.id ≠ "")) x =
          true :=
      ⟨s, hs, by simp [hname, hne]⟩
    simpa [sessionByName, List.find?_isSome] using hex

/-- Registry agent used to exercise identity resolution concretely. -/
def agentC3 : Agent :=
  ⟨"mamh-eval-engineer", "Engineer", .sonnet, .idle, .blue, 0, 0, none, none⟩

/-- Subordinate session whose declared name matches `agentC3`'s id while
its opaque hash identifier differs. -/
def subC3 : AgentSession :=
  ⟨"a1d8cc3", some "mamh-eval-engineer", "agent-a1d8cc3.jsonl", 0, .working,
    none, none, none, none⟩

/-- Session snapshot containing only `subC3`. -/
def snapC3 : SessionSnapshot := ⟨none, [subC3]⟩

/-- Witness for C3: the name-matched session resolves (its opaque id
differs from the agent id) and the agent takes the session's activity. -/
theorem deriveAgentStatuses_resolution_witness :
    sessionByName snapC3.subagents "mamh-eval-engineer" = some subC3 ∧
    subC3.agentId ≠ "mamh-eval-engineer" ∧
    ∃ out : Agent,
      (deriveAgentStatusesFromSession [agentC3] [] snapC3)[0]? = some out ∧
      out.status = AgentStatus.working := by
  refine ⟨by decide, by decide, ?_⟩
  obtain ⟨out, h1, h2, -, -, -⟩ :=
    deriveAgentStatuses_resolution [agentC3] [] snapC3 0 agentC3 (by decide)
  exact ⟨out, h1, (h2 subC3 (by decide)).trans rfl⟩

-- --- FileWatcher (watcher.ts) ---

/-- The watcher's only cross-trigger mutable state: the previously
published Snapshot (`lastState` in `watcher.ts`). -/
structure WatcherState where
  lastState : Option DashboardState
deriving DecidableEq

/-- `FileWatcher.hasStatusChanged` (lines 91-105): agent-count equality
and per-agent status equality against the previously published state;
with no previous state everything counts as changed. -/
def hasStatusChanged (last : Option DashboardState) (newState : DashboardState) : Bool :=
  match last with
  | none => true
  | some old =>
    if old.agents.length ≠ newState.agents.length then true
    else newState.agents.any fun na =>
      match old.agents.find? (fun a => decide (a.id = na.id)) with
      | none => true
      | some oa => decide (oa.status ≠ na.status)

/-- `FileWatcher.reevaluate` (lines 79-89): the periodic trigger re-reads
state (the fresh Snapshot is given as `snap`) and publishes it only when
`hasStatusChanged` reports a difference, updating `lastState` exactly on
publish. The returned option is the emitted update, if any. -/
def reevaluate (w : WatcherState) (snap : DashboardState) :
    WatcherState × Option DashboardState :=
  if hasStatusChanged w.lastState snap then (⟨some snap⟩, some snap) else (w, none)

/-- The debounce callback inside `FileWatcher.scheduleUpdate` (lines
64-72): a debounce-triggered re-assembly always stores and publishes the
fresh Snapshot, with no diff comparison. -/
def debouncePublish (w : WatcherState) (snap : DashboardState) :
    WatcherState × Option DashboardState :=
  let _ := w
  (⟨some snap⟩, some snap)

/-- The claim's hypothesis on a pair of snapshots: same number of agents
and, for every agent id occurring in the second, the same status as in
the first (statuses compared through the same first-match-by-id lookup
the watcher uses). -/
def sameAgentStatuses (s1 s2 : DashboardState) : Bool :=
  decide (s1.agents.length = s2.agents.length) &&
  s2.agents.all fun na =>
    match s1.agents.find? (fun a => decide (a.id = na.id)) with
    | none => false
    | some oa => decide (oa.status = na.status)

/-- Unchanged-status reading of `hasStatusChanged` against a present
previous state. -/
theorem hasStatusChanged_eq_false_iff (old newState : DashboardState) :
    hasStatusChanged (some old) newState = false ↔
      (old.agents.length = newState.agents.length ∧
        ∀ na ∈ newState.agents,
          ∃ oa, old.agents.find? (fun a => decide (a.id = na.id)) = some oa ∧
            oa.status = na.status) := by
  simp only [hasStatusChanged]
  by_cases hlen : old.agents.length = newState.agents.length
  · rw [if_neg (by simp [hlen])]
    simp only [List.any_eq_false]
    constructor
    · intro h
      refine ⟨hlen, fun na hna => ?_⟩
      have hm := h na hna
      rcases hf : old.agents.find? (fun a => decide (a.id = na.id)) with _ | oa
      · rw [hf] at hm
        simp at hm
      · rw [hf] at hm
        simp at hm
        exact ⟨oa, hf, hm⟩
    · intro h na hna
      rcases h.2 na hna with ⟨oa, hf, hs⟩
      rw [hf]
      simp [hs]
  · rw [if_pos (by simp [hlen])]
    simp only [Bool.true_eq_false, false_iff, not_and]
    intro h
    exact absurd h hlen

/-- Reading of the claim's pair hypothesis. -/
theorem sameAgentStatuses_iff (s1 s2 : DashboardState) :
    sameAgentStatuses s1 s2 = true ↔
      (s1.agents.length = s2.agents.length ∧
        ∀ na ∈ s2.agents,
          ∃ oa, s1.agents.find? (fun a => decide (a.id = na.id)) = some oa ∧
            oa.status = na.status) := by
  simp only [sameAgentStatuses, Bool.and_eq_true, decide_eq_true_eq,
    List.all_eq_true]
  constructor
  · intro ⟨hlen, h⟩
    refine ⟨hlen, fun na hna => ?_⟩
    have := h na hna
    rcases hf : s1.agents.find? (fun a => decide (a.id = na.id)) with _ | oa
    · rw [hf] at this
      simp at this
    · rw [hf] at this
      exact ⟨oa, hf, by simpa using this⟩
  · intro ⟨hlen, h⟩
    refine ⟨hlen, fun na hna => ?_⟩
    rcases h na hna with ⟨oa, hf, hs⟩
    rw [hf]
    simpa using hs

/-- Suppression carries over: a snapshot status-identical to one already
judged unchanged against the stored state is itself judged unchanged. -/
theorem hasStatusChanged_trans (old s1 s2 : DashboardState)
    (h1 : hasStatusChanged (some old) s1 = false)
    (h2 : sameAgentStatuses s1 s2 = true) :
    hasStatusChanged (some old) s2 = false := by
  rw [hasStatusChanged_eq_false_iff] at h1 ⊢
  rw [sameAgentStatuses_iff] at h2
  refine ⟨h1.1.trans h2.1, fun na hna => ?_⟩
  rcases h2.2 na hna with ⟨b, hfb, hsb⟩
  have hbmem : b ∈ s1.agents := List.mem_of_find?_eq_some hfb
  have hbid : b.id = na.id := by
    have := List.find?_some hfb
    simpa using this
  rcases h1.2 b hbmem with ⟨c, hfc, hsc⟩
  rw [hbid] at hfc
  exact ⟨c, hfc, hsc.trans hsb⟩

/-- Agent used in concrete watcher states. -/
def sampleAgent : Agent := ⟨"a1", "Engineer", .sonnet, .idle, .blue, 0, 0, none, none⟩

/-- Concrete project state for sample snapshots. -/
def sampleProject : ProjectState :=
  ⟨"p", "0", "running", none, [], ⟨0, 0, 0, 0, 0, 0⟩, none, none⟩

/-- Concrete resource usage for sample snapshots. -/
def sampleResources : ResourceUsage :=
  ⟨⟨0, 5000000, "N/A"⟩, ⟨0, 20000000, "N/A"⟩, ⟨0, 200000, 0⟩, "unknown", none⟩

/-- Concrete one-agent snapshot for the watcher claims. -/
def sampleState : DashboardState :=
  ⟨[sampleAgent], [], [], sampleProject, sampleResources, [], none⟩

/-- C6 counterexample: with the previously published snapshot already
status-identical, two consecutive periodic re-evaluations over
status-identical snapshots publish nothing at all — the first one is
suppressed too, so the claim's unconditional "publishes the first
snapshot" fails at this input. -/
theorem reevaluate_pair_counterexample :
    sameAgentStatuses sampleState sampleState = true ∧
    (reevaluate ⟨some sampleState⟩ sampleState).2 = none ∧
    (reevaluate (reevaluate ⟨some sampleState⟩ sampleState).1 sampleState).2 = none := by
  decide

/-- C6 (amended): over any pair of consecutive periodic re-evaluations
whose snapshots are status-identical, the second is always suppressed;
the first is published exactly when it differs (by the watcher's
agent-count/per-agent-status comparison) from the previously published
state; and a debounce-triggered re-assembly publishes unconditionally,
with no diff comparison. -/
theorem reevaluate_suppresses_second (w : WatcherState) (s1 s2 : DashboardState)
    (hsame : sameAgentStatuses s1 s2 = true) :
    ((reevaluate (reevaluate w s1).1 s2).2 = none) ∧
    (hasStatusChanged w.lastState s1 = true →
      (reevaluate w s1).2 = some s1 ∧
      (reevaluate (reevaluate w s1).1 s2).2 = none) ∧
    (hasStatusChanged w.lastState s1 = false → (reevaluate w s1).2 = none) ∧
    (∀ (w' : WatcherState) (snap : DashboardState),
      (debouncePublish w' snap).2 = some snap) := by
  have hsec : (reevaluate (reevaluate w s1).1 s2).2 = none := by
    by_cases hc : hasStatusChanged w.lastState s1 = true
    · have h1 : (reevaluate w s1).1 = ⟨some s1⟩ := by
        simp [reevaluate, hc]
      rw [h1]
      have hs2 : hasStatusChanged (some s1) s2 = false :=
        (hasStatusChanged_eq_false_iff s1 s2).mpr
          ((sameAgentStatuses_iff s1 s2).mp hsame)
      simp [reevaluate, hs2]
    · have h1 : (reevaluate w s1).1 = w := by
        simp [reevaluate, hc]
      rw [h1]
      rcases hw : w.lastState with _ | old
      · exfalso
        apply hc
        simp [hasStatusChanged, hw]
      · have hold : hasStatusChanged (some old) s1 = false := by
          rw [← hw]
          exact Bool.not_eq_true _ ▸ (by simpa using hc)
        have := hasStatusChanged_trans old s1 s2 hold hsame
        simp [reevaluate, hw, this]
  refine ⟨hsec, fun hc => ⟨by simp [reevaluate, hc], hsec⟩,
    fun hc => by simp [reevaluate, hc], fun w' snap => rfl⟩

/-- Witness for C6: from a fresh watcher (no previous state) the first of
two identical periodic assemblies publishes and the second is suppressed. -/
theorem reevaluate_suppresses_second_witness :
    (reevaluate ⟨none⟩ sampleState).2 = some sampleState ∧
    (reevaluate (reevaluate ⟨none⟩ sampleState).1 sampleState).2 = none :=
  (reevaluate_suppresses_second ⟨none⟩ sampleState sampleState (by decide)).2.1
    (by decide)

-- --- MamhAdapter state/session parsing (claude-code.ts lines 213-251, 530-593) ---

/-- JS truthiness filter on an optional string: `null`/`undefined` and the
empty string are falsy. -/
def jsTruthy (o : Option String) : Option String :=
  match o with
  | some s => if s = "" then none else some s
  | none => none

/-- `String.prototype.includes`: substring occurrence test. -/
def strIncludes (s sub : String) : Bool :=
  hasSub s.data sub.data

/-- `SessionSchema` parse result (`session.json`, read through
`readJsonSafe`, which swallows every failure; the absent-vs-null
distinction on `currentMilestone` is observationally irrelevant downstream
and collapsed into `none`). -/
structure SessionMeta where
  projectName : String
  description : Option String
  startedAt : Option String
  currentPhase : Option Int
  currentMilestone : Option String
deriving DecidableEq, Repr

/-- `TicketsSummarySchema` parse result (optional members still unset). -/
structure TicketsSummaryParsed where
  total : Int
  completed : Int
  inProgress : Int
  pending : Int
  blocked : Option Int
  failed : Option Int
deriving DecidableEq, Repr

/-- `TicketsSummarySchema.safeParse`. -/
def parseTicketsSummaryJson : Json → Option TicketsSummaryParsed
  | .obj fs => do
    let total ← reqNum (getField fs "total")
    let completed ← reqNum (getField fs "completed")
    let inProgress ← reqNum (getField fs "inProgress")
    let pending ← reqNum (getField fs "pending")
    let blocked ← optNum (getField fs "blocked")
    let failed ← optNum (getField fs "failed")
    some ⟨total, completed, inProgress, pending, blocked, failed⟩
  | _ => none

/-- `FlatStateSchema` parse result. -/
structure FlatState where
  phase : Int
  status : String
  currentMilestone : Option String
  activeAgents : Option (List String)
  ticketsSummary : TicketsSummaryParsed
  lastUpdated : Option String
deriving DecidableEq, Repr

/-- `FlatStateSchema.safeParse`. -/
def parseFlatState : Json → Option FlatState
  | .obj fs => do
    let phase ← reqNum (getField fs "phase")
    let status ← reqString (getField fs "status")
    let currentMilestone ← nullableString (getField fs "currentMilestone")
    let activeAgents ← optStringArray (getField fs "activeAgents")
    let ticketsSummary ← (getField fs "ticketsSummary").bind parseTicketsSummaryJson
    let lastUpdated ← optString (getField fs "lastUpdated")
    some ⟨phase, status, currentMilestone, activeAgents, ticketsSummary, lastUpdated⟩
  | _ => none

/-- One `phaseHistory` entry of `RichStateSchema`. -/
structure PhaseHistoryEntry where
  phase : String
  completedAt : String
deriving DecidableEq, Repr

/-- Element parser for `phaseHistory`. -/
def parsePhaseHistoryEntry : Json → Option PhaseHistoryEntry
  | .obj fs => do
    let phase ← reqString (getField fs "phase")
    let completedAt ← reqString (getField fs "completedAt")
    some ⟨phase, completedAt⟩
  | _ => none

/-- `RichStateSchema` parse result. -/
structure RichState where
  phase : String
  phaseHistory : Option (List PhaseHistoryEntry)
  currentMilestone : Option String
  milestones : Option (List String)
  agentsSpawned : Option (List String)
  startedAt : Option String
  lastUpdatedAt : Option String
  ticketsSummary : Option TicketsSummaryParsed
deriving DecidableEq, Repr

/-- `RichStateSchema.safeParse`. -/
def parseRichState : Json → Option RichState
  | .obj fs => do
    let phase ← reqString (getField fs "phase")
    let phaseHistory ← match getField fs "phaseHistory" with
      | none => some none
      | some (.arr xs) => (xs.mapM parsePhaseHistoryEntry).map some
      | some _ => none
    let currentMilestone ← nullableString (getField fs "currentMilestone")
    let milestones ← optStringArray (getField fs "milestones")
    let agentsSpawned ← optStringArray (getField fs "agentsSpawned")
    let startedAt ← optString (getField fs "startedAt")
    let lastUpdatedAt ← optString (getField fs "lastUpdatedAt")
    let ticketsSummary ← match getField fs "ticketsSummary" with
      | none => some none
      | some j => (parseTicketsSummaryJson j).map some
    some ⟨phase, phaseHistory, currentMilestone, milestones, agentsSpawned,
      startedAt, lastUpdatedAt, ticketsSummary⟩
  | _ => none

/-- Normalized orchestration-state value (`MamhStateResult` in the
source; `ticketsSummary` is never null on either schema path, so it is a
plain record here). `milestoneCompletions` keeps the raw JSON values:
only the keys are used by ticket overriding, while the activity reader
re-reads the file and keeps string values only. -/
structure MamhStateResult where
  phase : String
  status : String
  currentMilestone : Option String
  activeAgents : List String
  ticketsSummary : TicketsSummary
  milestoneCompletions : List (String × Json)
  startedAt : Option String
  lastUpdatedAt : Option String

/-- `parsed.milestoneCompletions ?? {}` as an entry list; non-object
values (and absence) give the empty map. A JSON-`null` file is handled
separately because property access on `null` throws. -/
def milestoneCompletionsOf (j : Json) : List (String × Json) :=
  match j with
  | .obj fs =>
    match getField fs "milestoneCompletions" with
    | some (.obj ms) => ms
    | _ => []
  | _ => []

/-- Defaults applied to a parsed tickets summary (`?? 0` on the optional
counters). -/
def fillTicketsSummary (ts : TicketsSummaryParsed) : TicketsSummary :=
  ⟨ts.total, ts.completed, ts.inProgress, ts.pending,
    ts.blocked.getD 0, ts.failed.getD 0⟩

/-- `MamhAdapter.readMamhState` (lines 537-593): a missing file yields
null; `JSON.parse` throws on malformed text (unguarded, line 542);
property access on a parsed `null` throws a TypeError (line 543); then
the flat schema is tried before the rich schema and a value matching
neither yields null. -/
def readMamhStateE : FileContent → Except String (Option MamhStateResult)
  | .missing => .ok none
  | .malformed => .error "Unexpected token in JSON"
  | .json .null => .error "Cannot read properties of null"
  | .json j =>
    .ok (
      let mc := milestoneCompletionsOf j
      match parseFlatState j with
      | some d =>
        some { phase := toString d.phase
               status := d.status
               currentMilestone := d.currentMilestone
               activeAgents := d.activeAgents.getD []
               ticketsSummary := fillTicketsSummary d.ticketsSummary
               milestoneCompletions := mc
               startedAt := none
               lastUpdatedAt := d.lastUpdated }
      | none =>
        match parseRichState j with
        | some d =>
          some { phase := d.phase
                 status := d.phase
                 currentMilestone := d.currentMilestone
                 activeAgents := d.agentsSpawned.getD []
                 ticketsSummary :=
                   match d.ticketsSummary with
                   | some ts => fillTicketsSummary ts
                   | none => ⟨0, 0, 0, 0, 0, 0⟩
                 milestoneCompletions := mc
                 startedAt := d.startedAt
                 lastUpdatedAt := d.lastUpdatedAt }
        | none => none)

/-- `applyMilestoneCompletions` (lines 743-757): a ticket whose milestone
contains a completed-milestone key, or whose id starts with one, is
forced to `completed`. -/
def applyMilestoneCompletions (tickets : List Ticket)
    (milestoneCompletions : List (String × Json)) : List Ticket :=
  tickets.map fun ticket =>
    if milestoneCompletions.any
        (fun p => strIncludes ticket.milestone p.1 || leadsWith p.1.data ticket.id.data)
    then { ticket with status := .completed }
    else ticket

/-- `buildLeadAgent` (lines 878-913). -/
def buildLeadAgent (mamhState : Option MamhStateResult) (subagents : List Agent)
    (snap : SessionSnapshot) : Agent :=
  let status : AgentStatus :=
    match snap.mainSession with
    | some m => m.activity
    | none =>
      let isExecuting :=
        match mamhState with
        | some st => st.phase = "executing" || st.status = "executing"
        | none => false
      let hasActiveSubagents := subagents.any (fun a => decide (a.status = .working))
      let allDone :=
        match mamhState with
        | some st => st.status = "milestone-complete" || st.status = "completed"
        | none => false
      if allDone then .completed
      else if isExecuting || hasActiveSubagents then .working
      else .idle
  { id := "lead"
    role := "Orchestrator (main session)"
    modelTier := .opus
    status := status
    color := .blue
    ticketsAssigned := 0
    ticketsCompleted := 0
    currentTicket := none
    sessionId := some ((snap.mainSession.map (·.sessionId)).getD "main") }

/-- Rendering of an activity value back to its string form. -/
def activityStr : AgentStatus → String
  | .working => "working"
  | .completed => "completed"
  | .idle => "idle"

/-- `buildSessionActivityEvents` (lines 824-876): a lead event from the
main session plus one event per subordinate session whose display name or
opaque id matches some agent. Unmatched sessions are skipped here. -/
def buildSessionActivityEvents (iso : Int → String) (snap : SessionSnapshot)
    (agents : List Agent) : List ActivityEvent :=
  let leadEvents : List ActivityEvent :=
    match snap.mainSession with
    | some m =>
      let statusLabel :=
        match m.activity with
        | .working => "actively orchestrating"
        | .completed => "recently finished"
        | .idle => "idle"
      [{ timestamp := iso m.lastModified
         agentId := some "lead"
         sessionId := some m.sessionId
         type := if m.activity = .working then .agentSpawned else .agentIdle
         summary := "[lead] Lead is " ++ statusLabel }]
    | none => []
  let subEvents := snap.subagents.filterMap fun sub =>
    let agentName := sub.agentName.getD sub.agentId
    match agents.find? (fun a => decide (a.id = agentName ∨ a.id = sub.agentId)) with
    | none => none
    | some _ =>
      let summary :=
        match sub.activity with
        | .working =>
          let taskPart :=
            match jsTruthy sub.currentTask with
            | some t => " on " ++ t
            | none => ""
          let actionPart :=
            match jsTruthy sub.lastAction with
            | some a => " — " ++ a
            | none => ""
          "[" ++ agentName ++ "] Working" ++ taskPart ++ actionPart
        | .completed =>
          let taskPart :=
            match jsTruthy sub.currentTask with
            | some t => ": " ++ t
            | none => ""
          "[" ++ agentName ++ "] Just finished" ++ taskPart
        | .idle => "[" ++ agentName ++ "] Idle"
      some { timestamp := iso sub.lastModified
             agentId := some agentName
             sessionId := some (basenameNoJsonl sub.sessionFile)
             type :=
               match sub.activity with
               | .working => .ticketStarted
               | .completed => .ticketCompleted
               | .idle => .agentIdle
             summary := summary }
  leadEvents ++ subEvents

/-- `buildProjectState` (lines 915-934). -/
def buildProjectState (session : Option SessionMeta)
    (mamhState : Option MamhStateResult) (agents : List Agent) : ProjectState :=
  let activeIds := (agents.filter (fun a => decide (a.status = .working))).map (·.id)
  { name := (session.map (·.projectName)).getD "Unknown Project"
    phase :=
      match mamhState with
      | some st => st.phase
      | none => toString ((session.bind (·.currentPhase)).getD 0)
    status := (mamhState.map (·.status)).getD "unknown"
    currentMilestone :=
      (mamhState.bind (·.currentMilestone)).orElse
        (fun _ => session.bind (·.currentMilestone))
    activeAgents := activeIds
    ticketsSummary := (mamhState.map (·.ticketsSummary)).getD ⟨0, 0, 0, 0, 0, 0⟩
    startedAt :=
      (mamhState.bind (·.startedAt)).orElse (fun _ => session.bind (·.startedAt))
    lastUpdatedAt := mamhState.bind (·.lastUpdatedAt) }

/-- `createEmptyState` (lines 944-971). -/
def createEmptyState (error : Option String) : DashboardState :=
  { agents := []
    tickets := []
    activity := []
    project := ⟨"No Project", "0", "disconnected", none, [], ⟨0, 0, 0, 0, 0, 0⟩,
      none, none⟩
    resources := ⟨⟨0, 5000000, "N/A"⟩, ⟨0, 20000000, "N/A"⟩, ⟨0, 200000, 0⟩,
      "unknown", none⟩
    messages := []
    error := error }

-- --- Activity-log ordering (JS stable sort with a localeCompare comparator) ---

/-- Lexicographic less-or-equal on character lists by code point. -/
def lexLeb : List Char → List Char → Bool
  | [], _ => true
  | _ :: _, [] => false
  | a :: as, b :: bs =>
    if a.toNat < b.toNat then true
    else if b.toNat < a.toNat then false
    else lexLeb as bs

/-- Comparator underlying `(a, b) => a.timestamp.localeCompare(b.timestamp)`:
on the ISO-8601 UTC timestamps the adapters produce, `localeCompare`
agrees with code-point lexicographic order. -/
def tsLE (a b : ActivityEvent) : Bool :=
  lexLeb a.timestamp.data b.timestamp.data

/-- Comparator underlying `(a, b) => b.timestamp.localeCompare(a.timestamp)`
(descending). -/
def tsGE (a b : ActivityEvent) : Bool :=
  lexLeb b.timestamp.data a.timestamp.data

/-- `events.sort(ascending localeCompare)`: JS `Array.prototype.sort` is
stable, modelled by the stable `List.mergeSort`. -/
def sortByTimestampAsc (events : List ActivityEvent) : List ActivityEvent :=
  events.mergeSort tsLE

/-- `activity.sort(descending localeCompare)` in the Claude-Code adapter. -/
def sortByTimestampDesc (events : List ActivityEvent) : List ActivityEvent :=
  events.mergeSort tsGE

/-- `Array.prototype.slice(-n)` for positive `n`: the last `min n length`
elements. -/
def lastN {α : Type} (n : Nat) (l : List α) : List α := l.drop (l.length - n)

/-- Lines 400 and 407 / 682-684 of `claude-code.ts`: ascending stable sort
followed by `slice(-500)`. -/
def capActivityLog (events : List ActivityEvent) : List ActivityEvent :=
  lastN 500 (sortByTimestampAsc events)

-- --- MamhAdapter.readState (claude-code.ts lines 367-417) ---

/-- The file-system state `MamhAdapter.readState` observes in one pass.
Readers whose every internal parse is guarded by its own try/catch cannot
throw and are modelled by the values they produce: `rawTickets`
(`readTickets`, lines 461-528), `messages` (`readMessages`, lines
687-722), `snap` (`readSessionSnapshot` from `session-reader.ts`, where
every file operation catches) and `resources` (`readClaudeStats`, whose
source file is not part of the repository snapshot; per §4.3 of the spec
it never raises past its boundary). `commsEvents` is the outcome of the
comms-output and decisions portions of `readActivity` (lines 600-658):
that scan is NOT throw-free — `new Date(dateStr).toISOString()` at line
644 runs unguarded and throws a RangeError when a decisions header
carries a parenthesized token that contains `T` but is not a valid date
— so the outcome is either the pushed event list or the thrown
exception's message. The registry and orchestration-state files are kept
as raw `FileContent` because `readAgents` and `readMamhState` parse them
unguarded. -/
structure MamhFS where
  mamhDirExists : Bool
  registry : FileContent
  mamhState : FileContent
  sessionMeta : Option SessionMeta
  rawTickets : List Ticket
  commsEvents : Except String (List ActivityEvent)
  messages : List Message
  resources : ResourceUsage
  snap : SessionSnapshot

/-- Milestone-completion activity events synthesized by `readActivity`
(lines 661-679): the state file is re-read under a local try/catch, so a
missing, malformed or `null` file contributes nothing. Entries whose
value is a string are rendered exactly as the source does; for a
non-string value the source pushes it through the `as string` cast,
which a string-typed timestamp cannot hold, so those entries are dropped
here and every theorem about the error field carries the
`milestoneValuesStringsB` restriction under which this definition is
exact. -/
def milestoneEventsOfState : FileContent → List ActivityEvent
  | .json j =>
    (milestoneCompletionsOf j).filterMap fun p =>
      match p.2 with
      | .str completedAt =>
        some { timestamp := completedAt
               agentId := some "lead"
               sessionId := some "main"
               type := .milestoneCompleted
               summary := "[lead] Milestone " ++ p.1 ++ " completed" }
      | _ => none
  | _ => []

/-- `MamhAdapter.readActivity` (lines 595-685): comms and decisions
events, then milestone completions, sorted ascending and capped to the
last 500. A throw in the comms/decisions scan (line 644) aborts the
function before the milestone loop, propagating the exception. -/
def readActivity (fs : MamhFS) : Except String (List ActivityEvent) :=
  match fs.commsEvents with
  | .error msg => .error msg
  | .ok evs => .ok (capActivityLog (evs ++ milestoneEventsOfState fs.mamhState))

/-- `MamhAdapter.readState` (lines 367-417). A missing artifact root
returns the empty state with an error before any reading happens. An
exception thrown by the unguarded `JSON.parse` calls in `readAgents`
(line 424) or `readMamhState` (line 542), or by the unguarded
`new Date(dateStr).toISOString()` in `readActivity`'s decisions scan
(line 644), rejects the `Promise.all` and is converted by the `catch`
block into an empty state carrying the exception's message (which
rejection wins is timing-dependent in JS; the model examines the readers
in a fixed order, and no claim depends on the message text). On the
success path the snapshot is assembled with a null error. -/
def mamhReadState (iso : Int → String) (fs : MamhFS) : DashboardState :=
  if fs.mamhDirExists = false then
    createEmptyState (some "No .mamh directory found")
  else
    match readAgentsE fs.registry, readMamhStateE fs.mamhState, readActivity fs with
    | .error msg, _, _ => createEmptyState (some msg)
    | .ok _, .error msg, _ => createEmptyState (some msg)
    | .ok _, .ok _, .error msg => createEmptyState (some msg)
    | .ok agents, .ok mamhState, .ok activityEvents =>
      let milestoneCompletions := (mamhState.map (·.milestoneCompletions)).getD []
      let tickets := applyMilestoneCompletions fs.rawTickets milestoneCompletions
      let agentsWithStatus := deriveAgentStatusesFromSession agents tickets fs.snap
      let leadAgent := buildLeadAgent mamhState agentsWithStatus fs.snap
      let allAgents := leadAgent :: agentsWithStatus
      let sessionActivity := buildSessionActivityEvents iso fs.snap agentsWithStatus
      let project := buildProjectState fs.sessionMeta mamhState allAgents
      { agents := allAgents
        tickets := tickets
        activity := capActivityLog (activityEvents ++ sessionActivity)
        project := project
        resources := fs.resources
        messages := fs.messages
        error := none }

-- --- ClaudeCodeAdapter.readState (claude-code.ts lines 31-161) ---

/-- `STALE_CUTOFF_MS = 60 * 60 * 1000` (line 68). -/
def STALE_CUTOFF_MS : Int := 60 * 60 * 1000

/-- The `recentSubagents` filter (lines 69-71): keep a subordinate session
when it is not idle or its file was modified less than one hour before
now. -/
def recentSubagents (now : Int) (subs : List AgentSession) : List AgentSession :=
  subs.filter fun s =>
    decide (s.activity ≠ .idle) || decide (now - s.lastModified < STALE_CUTOFF_MS)

/-- The lead agent pushed from the main session (lines 42-54); absent
main session, no lead agent. -/
def ccLeadAgents (snap : SessionSnapshot) : List Agent :=
  match snap.mainSession with
  | some m =>
    [{ id := "lead"
       role := "Main Session"
       modelTier := .opus
       status := m.activity
       color := .blue
       ticketsAssigned := 0
       ticketsCompleted := 0
       currentTicket := none
       sessionId := some m.sessionId }]
  | none => []

/-- The lead activity event (lines 56-62). -/
def ccLeadEvents (iso : Int → String) (snap : SessionSnapshot) : List ActivityEvent :=
  match snap.mainSession with
  | some m =>
    [{ timestamp := iso m.lastModified
       agentId := some "lead"
       sessionId := some m.sessionId
       type := if m.activity = .working then .agentSpawned else .agentIdle
       summary := "[lead] Main session " ++
         (if m.activity = .working then "active" else activityStr m.activity) }]
  | none => []

/-- Agents pushed for the filtered subordinate sessions (lines 73-86);
the color index is offset by one past the lead's. -/
def ccSubAgents (subs : List AgentSession) : List Agent :=
  subs.enum.map fun p =>
    let sub := p.2
    let displayId := sub.agentName.getD sub.agentId
    { id := displayId
      role := sub.role.getD "Subagent"
      modelTier :=
        if (match sub.model with | some m => strIncludes m "opus" | none => false)
        then .opus else .sonnet
      status := sub.activity
      color := assignColor ((p.1 + 1) % AGENT_COLORS.length)
      ticketsAssigned := 0
      ticketsCompleted := 0
      currentTicket := none
      sessionId := some (basenameNoJsonl sub.sessionFile) }

/-- Activity events pushed for the filtered subordinate sessions (lines
88-106). The separator in the working summary reproduces the source
string byte-for-byte. -/
def ccSubEvents (iso : Int → String) (subs : List AgentSession) : List ActivityEvent :=
  subs.map fun sub =>
    let displayId := sub.agentName.getD sub.agentId
    let summary :=
      match sub.activity with
      | .working =>
        let taskPart :=
          match jsTruthy sub.currentTask with
          | some t => " on " ++ t
          | none => ""
        let actionPart :=
          match jsTruthy sub.lastAction with
          | some a => " â€” " ++ a
          | none => ""
        "[" ++ displayId ++ "] Working" ++ taskPart ++ actionPart
      | .completed =>
        let taskPart :=
          match jsTruthy sub.currentTask with
          | some t => ": " ++ t
          | none => ""
        "[" ++ displayId ++ "] Just finished" ++ taskPart
      | .idle => "[" ++ displayId ++ "] Idle"
    { timestamp := iso sub.lastModified
      agentId := some displayId
      sessionId := some (basenameNoJsonl sub.sessionFile)
      type :=
        match sub.activity with
        | .working => .ticketStarted
        | .completed => .ticketCompleted
        | .idle => .agentIdle
      summary := summary }

/-- `ClaudeCodeAdapter.readState` (lines 31-161). Its inputs are the two
awaited reader results (`resources`, `snap`), the current time and the
project name; everything after the awaits is pure and cannot throw, so
the `catch` branch (lines 132-160) is unreachable and not modelled. The
activity list is sorted newest-first (line 110: descending) and no cap is
applied to it. -/
def ccReadState (iso : Int → String) (now : Int) (projectName : String)
    (resources : ResourceUsage) (snap : SessionSnapshot) : DashboardState :=
  let recents := recentSubagents now snap.subagents
  let agents := ccLeadAgents snap ++ ccSubAgents recents
  let activity := sortByTimestampDesc (ccLeadEvents iso snap ++ ccSubEvents iso recents)
  { agents := agents
    tickets := []
    activity := activity
    project :=
      { name := projectName
        phase := "active"
        status := "running"
        currentMilestone := none
        activeAgents := (agents.filter (fun a => decide (a.status = .working))).map (·.id)
        ticketsSummary := ⟨0, 0, 0, 0, 0, 0⟩
        startedAt := snap.mainSession.map (fun m => iso m.lastModified)
        lastUpdatedAt := some (iso now) }
    resources := resources
    messages := []
    error := none }

/-- Concrete stand-in for `Date.prototype.toISOString`: agrees with the
JS function at the two epoch instants the concrete inputs below use. -/
def isoFix (t : Int) : String :=
  if t = 1704067200000 then "2024-01-01T00:00:00.000Z"
  else if t = 1704153600000 then "2024-01-02T00:00:00.000Z"
  else "1970-01-01T00:00:00.000Z"

/-- C5: with a missing artifact root, `readState` returns the empty
snapshot — no agents, no tickets — carrying the non-null error string,
and (being a total function in the model, mirroring the early return at
line 370) raises nothing. -/
theorem mamhReadState_missing_root (iso : Int → String) (fs : MamhFS)
    (h : fs.mamhDirExists = false) :
    (mamhReadState iso fs).agents = [] ∧
    (mamhReadState iso fs).tickets = [] ∧
    (mamhReadState iso fs).error = some "No .mamh directory found" := by
  simp [mamhReadState, h, createEmptyState]

/-- File-system state with no artifact root. -/
def fsMissingRoot : MamhFS :=
  ⟨false, .missing, .missing, none, [], .ok [], [], sampleResources, ⟨none, []⟩⟩

/-- Witness for C5 at a concrete rootless file system. -/
theorem mamhReadState_missing_root_witness :
    (mamhReadState isoFix fsMissingRoot).agents = [] ∧
    (mamhReadState isoFix fsMissingRoot).tickets = [] ∧
    (mamhReadState isoFix fsMissingRoot).error = some "No .mamh directory found" :=
  mamhReadState_missing_root isoFix fsMissingRoot rfl

/-- Totality of the lexicographic comparator. -/
theorem lexLeb_total : ∀ as bs, (lexLeb as bs || lexLeb bs as) = true := by
  intro as
  induction as with
  | nil => intro bs; simp [lexLeb]
  | cons a as ih =>
    intro bs
    cases bs with
    | nil => simp [lexLeb]
    | cons b bs =>
      by_cases h1 : a.toNat < b.toNat
      · simp [lexLeb, h1]
      · by_cases h2 : b.toNat < a.toNat
        · simp [lexLeb, h1, h2]
        · simp [lexLeb, h1, h2, ih bs]

/-- Transitivity of the lexicographic comparator. -/
theorem lexLeb_trans : ∀ as bs cs, lexLeb as bs = true → lexLeb bs cs = true →
    lexLeb as cs = true := by
  intro as
  induction as with
  | nil => intro bs cs _ _; simp [lexLeb]
  | cons a as ih =>
    intro bs cs h1 h2
    cases bs with
    | nil => simp [lexLeb] at h1
    | cons b bs =>
      cases cs with
      | nil => simp [lexLeb] at h2
      | cons c cs =>
        simp only [lexLeb] at h1 h2 ⊢
        by_cases hab : a.toNat < b.toNat <;> by_cases hba : b.toNat < a.toNat <;>
          by_cases hbc : b.toNat < c.toNat <;> by_cases hcb : c.toNat < b.toNat <;>
          simp only [hab, hba, hbc, hcb, if_true, if_false, ite_true, ite_false,
            if_pos, if_neg, not_false_iff] at h1 h2 ⊢ <;>
          first
            | exact Bool.noConfusion h1
            | exact Bool.noConfusion h2
            | rfl
            | omega
            | (rw [if_pos (by omega)])
            | (rw [if_neg (by omega), if_neg (by omega)]; exact ih bs cs h1 h2)

/-- Transitivity of the ascending timestamp comparator. -/
theorem tsLE_trans (a b c : ActivityEvent) (h1 : tsLE a b = true)
    (h2 : tsLE b c = true) : tsLE a c = true :=
  lexLeb_trans _ _ _ h1 h2

/-- Totality of the ascending timestamp comparator. -/
theorem tsLE_total (a b : ActivityEvent) : (tsLE a b || tsLE b a) = true :=
  lexLeb_total _ _

/-- Transitivity of the descending timestamp comparator. -/
theorem tsGE_trans (a b c : ActivityEvent) (h1 : tsGE a b = true)
    (h2 : tsGE b c = true) : tsGE a c = true :=
  lexLeb_trans _ _ _ h2 h1

/-- Totality of the descending timestamp comparator. -/
theorem tsGE_total (a b : ActivityEvent) : (tsGE a b || tsGE b a) = true :=
  lexLeb_total _ _

/-- The ascending stable sort produces an ascending chain. -/
theorem sortByTimestampAsc_pairwise (l : List ActivityEvent) :
    List.Pairwise (fun a b => tsLE a b = true) (sortByTimestampAsc l) :=
  List.sorted_mergeSort tsLE_trans tsLE_total l

/-- The capped log is an ascending chain. -/
theorem capActivityLog_pairwise (l : List ActivityEvent) :
    List.Pairwise (fun a b => tsLE a b = true) (capActivityLog l) :=
  List.Pairwise.sublist (List.drop_sublist _ _) (sortByTimestampAsc_pairwise l)

/-- The activity field of every MAMH snapshot is either empty (error
paths) or a capped log. -/
theorem mamhReadState_activity_cases (iso : Int → String) (fs : MamhFS) :
    (mamhReadState iso fs).activity = [] ∨
    ∃ l, (mamhReadState iso fs).activity = capActivityLog l := by
  by_cases hd : fs.mamhDirExists = false
  · left
    simp [mamhReadState, hd, createEmptyState]
  · rcases hreg : readAgentsE fs.registry with msg | agents
    · left
      simp [mamhReadState, hd, hreg, createEmptyState]
    · rcases hst : readMamhStateE fs.mamhState with msg | mst
      · left
        simp [mamhReadState, hd, hreg, hst, createEmptyState]
      · rcases hact : readActivity fs with msg | acts
        · left
          simp [mamhReadState, hd, hreg, hst, hact, createEmptyState]
        · right
          exact ⟨acts ++ buildSessionActivityEvents iso fs.snap
              (deriveAgentStatusesFromSession agents
                (applyMilestoneCompletions fs.rawTickets
                  ((mst.map (·.milestoneCompletions)).getD [])) fs.snap),
            by simp [mamhReadState, hd, hreg, hst, hact]⟩

/-- Length of the capped log: everything is kept up to 500 entries. -/
theorem capActivityLog_length (l : List ActivityEvent) :
    (capActivityLog l).length = min l.length 500 := by
  simp only [capActivityLog, lastN, List.length_drop, sortByTimestampAsc,
    List.length_mergeSort]
  omega

/-- C4 (amended): the MAMH adapter's snapshot activity is always an
ascending chain of at most 500 events; the sort-and-cap step keeps the
last `min n 500` events of the ascending stable sort, and the dropped
prefix precedes everything kept (the take/cap concatenation is itself an
ascending chain over the full sorted permutation of the input); the
Claude-Code adapter instead sorts its activity descending (newest first)
and applies no cap — its length is exactly the number of built events. -/
theorem activity_log_order_and_cap :
    (∀ (iso : Int → String) (fs : MamhFS),
      List.Pairwise (fun a b => tsLE a b = true) ((mamhReadState iso fs).activity) ∧
      ((mamhReadState iso fs).activity).length ≤ 500) ∧
    (∀ events : List ActivityEvent,
      (capActivityLog events).length = min events.length 500 ∧
      List.Pairwise (fun a b => tsLE a b = true)
        ((sortByTimestampAsc events).take (events.length - 500) ++
          capActivityLog events) ∧
      List.Sublist (capActivityLog events) (sortByTimestampAsc events) ∧
      (sortByTimestampAsc events).Perm events) ∧
    (∀ (iso : Int → String) (now : Int) (projectName : String)
      (res : ResourceUsage) (snap : SessionSnapshot),
      List.Pairwise (fun a b => tsGE a b = true)
        ((ccReadState iso now projectName res snap).activity) ∧
      ((ccReadState iso now projectName res snap).activity).length =
        (ccLeadEvents iso snap).length +
          (recentSubagents now snap.subagents).length) := by
  refine ⟨fun iso fs => ⟨?_, ?_⟩, fun events => ⟨capActivityLog_length events, ?_, ?_, ?_⟩,
    fun iso now projectName res snap => ⟨?_, ?_⟩⟩
  · rcases mamhReadState_activity_cases iso fs with h | ⟨l, h⟩
    · rw [h]
      exact List.Pairwise.nil
    · rw [h]
      exact capActivityLog_pairwise l
  · rcases mamhReadState_activity_cases iso fs with h | ⟨l, h⟩
    · simp [h]
    · rw [h, capActivityLog_length]
      omega
  · have hlen : (sortByTimestampAsc events).length = events.length := by
      simp [sortByTimestampAsc]
    have hcap : capActivityLog events =
        (sortByTimestampAsc events).drop (events.length - 500) := by
      simp [capActivityLog, lastN, hlen]
    rw [hcap, List.take_append_drop]
    exact sortByTimestampAsc_pairwise events
  · exact List.drop_sublist _ _
  · exact List.mergeSort_perm events tsLE
  · show List.Pairwise (fun a b => tsGE a b = true)
      (sortByTimestampDesc (ccLeadEvents iso snap ++
        ccSubEvents iso (recentSubagents now snap.subagents)))
    exact List.sorted_mergeSort tsGE_trans tsGE_total _
  · show (sortByTimestampDesc (ccLeadEvents iso snap ++
        ccSubEvents iso (recentSubagents now snap.subagents))).length = _
    simp [sortByTimestampDesc, ccSubEvents]

/-- Older working subordinate session (modified at the 2024-01-01 epoch
instant). -/
def subC4a : AgentSession :=
  ⟨"s1", some "alpha", "agent-s1.jsonl", 1704067200000, .working,
    none, none, none, none⟩

/-- Newer working subordinate session (modified one day later). -/
def subC4b : AgentSession :=
  ⟨"s2", some "beta", "agent-s2.jsonl", 1704153600000, .working,
    none, none, none, none⟩

/-- Snapshot with two working subordinate sessions and no main session. -/
def snapC4 : SessionSnapshot := ⟨none, [subC4a, subC4b]⟩

/-- The activity event the Claude-Code adapter builds for `subC4a`. -/
def evC4a : ActivityEvent :=
  ⟨"2024-01-01T00:00:00.000Z", some "alpha", some "agent-s1", .ticketStarted,
    "[alpha] Working"⟩

/-- The activity event the Claude-Code adapter builds for `subC4b`. -/
def evC4b : ActivityEvent :=
  ⟨"2024-01-02T00:00:00.000Z", some "beta", some "agent-s2", .ticketStarted,
    "[beta] Working"⟩

/-- C4 counterexample: a Claude-Code assembly pass over two subordinate
sessions produces the activity list in descending timestamp order — the
newest event first — so the claim that either adapter's activity list is
ascending fails at this concrete input (and no 500 cap is applied on this
path either). -/
theorem cc_activity_descending_counterexample :
    (ccReadState isoFix 1704153600000 "proj" sampleResources snapC4).activity =
      [evC4b, evC4a] ∧
    ¬ List.Pairwise (fun a b => tsLE a b = true)
      ((ccReadState isoFix 1704153600000 "proj" sampleResources snapC4).activity) := by
  have hact : (ccReadState isoFix 1704153600000 "proj" sampleResources snapC4).activity =
      sortByTimestampDesc [evC4a, evC4b] := rfl
  have hcmp : tsGE evC4a evC4b = false := by decide
  have hsort : sortByTimestampDesc [evC4a, evC4b] = [evC4b, evC4a] := by
    simp [sortByTimestampDesc, List.mergeSort, List.splitInTwo, List.splitAt,
      List.splitAt.go, List.merge, hcmp]
  refine ⟨hact.trans hsort, ?_⟩
  rw [hact, hsort]
  intro hp
  rcases List.pairwise_cons.mp hp with ⟨hrel, -⟩
  have hle := hrel evC4a (by simp)
  exact absurd hle (by decide)

/-- C10: in the Claude-Code adapter, an idle subordinate session whose
last modification lies more than one hour before now is excluded from the
filtered list feeding the snapshot's agents and activity, while a session
that is not idle, or was modified within the past hour, is kept; the
snapshot's agent and activity lists are built exactly from the filtered
list (after the lead's entries). -/
theorem cc_stale_subagent_filter (now : Int) (snap : SessionSnapshot)
    (s : AgentSession) (hmem : s ∈ snap.subagents) :
    (s.activity = .idle → now - s.lastModified > STALE_CUTOFF_MS →
      s ∉ recentSubagents now snap.subagents) ∧
    (s.activity ≠ .idle ∨ now - s.lastModified < STALE_CUTOFF_MS →
      s ∈ recentSubagents now snap.subagents) ∧
    ∀ (iso : Int → String) (projectName : String) (res : ResourceUsage),
      (ccReadState iso now projectName res snap).agents =
        ccLeadAgents snap ++ ccSubAgents (recentSubagents now snap.subagents) ∧
      (ccReadState iso now projectName res snap).activity =
        sortByTimestampDesc
          (ccLeadEvents iso snap ++
            ccSubEvents iso (recentSubagents now snap.subagents)) := by
  refine ⟨?_, ?_, fun iso projectName res => ⟨rfl, rfl⟩⟩
  · intro hidle hstale hin
    rcases List.mem_filter.mp hin with ⟨-, hp⟩
    simp only [Bool.or_eq_true, decide_eq_true_eq] at hp
    rcases hp with h | h
    · exact h hidle
    · omega
  · intro h
    refine List.mem_filter.mpr ⟨hmem, ?_⟩
    simp only [Bool.or_eq_true, decide_eq_true_eq]
    exact h

/-- Idle subordinate session last modified at the epoch. -/
def subStale : AgentSession :=
  ⟨"s3", some "gamma", "agent-s3.jsonl", 0, .idle, none, none, none, none⟩

/-- Snapshot mixing a stale idle session with a working one. -/
def snapC10 : SessionSnapshot := ⟨none, [subStale, subC4a]⟩

/-- Witness for C10: two hours past the epoch, the stale idle session is
filtered out and the working one is kept. -/
theorem cc_stale_subagent_filter_witness :
    subStale ∉ recentSubagents 7200000 snapC10.subagents ∧
    subC4a ∈ recentSubagents 7200000 snapC10.subagents :=
  ⟨(cc_stale_subagent_filter 7200000 snapC10 subStale (by decide)).1 rfl (by decide),
   (cc_stale_subagent_filter 7200000 snapC10 subC4a (by decide)).2.1
     (Or.inl (by decide))⟩
